import Mathlib

/-!
Verification of `src/deep_learning/image_classification/utils.py`.

The Python utility functions are shallowly embedded as Lean definitions:
tensors become a shape plus an index-to-value map over the rationals,
Python dictionaries become ordered association lists, and the transform /
optimizer / scheduler objects built by the utilities become inductive
descriptions carrying exactly the parameters the source passes to the
library constructors.  Learning-rate values produced by the composed
schedulers are modelled from the documented closed forms of the library
schedulers the source instantiates (LinearLR, StepLR, SequentialLR).
-/

/-- The training-configuration namespace object consumed by
`get_data_augmentation`, `get_optimizer` and `get_lr_scheduler`
(utils.py passes an argparse `args` around; these are the fields read). -/
structure Args where
  crop_size : ℕ
  interpolation : ℕ
  hflip : Bool
  aug_type : String
  mag_bins : ℕ
  val_resize : ℕ
  opt_name : String
  lr : ℚ
  wd : ℚ
  sched_name : String
  warmup_decay : ℚ
  warmup_epochs : ℕ
  step_size : ℕ
  gamma : ℚ
  epochs : ℕ
  eta_min : ℚ

/-- `timm.data.constants.IMAGENET_DEFAULT_MEAN = (0.485, 0.456, 0.406)`,
with the float constants idealised as rationals. -/
def IMAGENET_DEFAULT_MEAN : List ℚ := [485/1000, 456/1000, 406/1000]

/-- `timm.data.constants.IMAGENET_DEFAULT_STD = (0.229, 0.224, 0.225)`,
with the float constants idealised as rationals. -/
def IMAGENET_DEFAULT_STD : List ℚ := [229/1000, 224/1000, 225/1000]

/-- An optimizer object as configured by `get_optimizer` (utils.py lines
589-593): the constructor records exactly the parameters passed to
`optim.SGD` / `optim.AdamW`. -/
inductive Optimizer where
  | SGD (lr : ℚ) (weight_decay : ℚ) (momentum : ℚ)
  | AdamW (lr : ℚ) (weight_decay : ℚ)
  deriving DecidableEq

/-- `get_optimizer` (utils.py lines 589-593): dispatch on `args.opt_name`;
`"sgd"` and `"adamw"` build the corresponding optimizer, anything else
falls through to `return None`. -/
def get_optimizer (args : Args) : Option Optimizer :=
  if args.opt_name = "sgd" then
    some (.SGD args.lr args.wd (9/10))
  else if args.opt_name = "adamw" then
    some (.AdamW args.lr args.wd)
  else
    none

/-- The main-phase scheduler built by `get_lr_scheduler` (utils.py lines
625-629): `StepLR(step_size, gamma)` or
`CosineAnnealingLR(T_max = epochs - warmup_epochs, eta_min)`. -/
inductive MainSched where
  | StepLR (step_size : ℕ) (gamma : ℚ)
  | CosineAnnealingLR (T_max : ℤ) (eta_min : ℚ)
  deriving DecidableEq

/-- The `SequentialLR` object returned by `get_lr_scheduler` (utils.py
lines 633-635): a `LinearLR` warmup with the given start factor and
total iteration count, chained with the main scheduler at the single
milestone `warmup_epochs`. -/
structure SequentialLRSched where
  start_factor : ℚ
  total_iters : ℕ
  main : MainSched
  milestone : ℕ
  deriving DecidableEq

/-- `get_lr_scheduler` (utils.py lines 624-635): the warmup `LinearLR` is
built unconditionally, the main scheduler is dispatched on
`args.sched_name`, and an unrecognized name hits `return None` before any
`SequentialLR` is assembled (so not even the warmup phase is returned). -/
def get_lr_scheduler (args : Args) : Option SequentialLRSched :=
  if args.sched_name = "step" then
    some { start_factor := args.warmup_decay, total_iters := args.warmup_epochs,
           main := .StepLR args.step_size args.gamma, milestone := args.warmup_epochs }
  else if args.sched_name = "cosine" then
    some { start_factor := args.warmup_decay, total_iters := args.warmup_epochs,
           main := .CosineAnnealingLR ((args.epochs : ℤ) - (args.warmup_epochs : ℤ)) args.eta_min,
           milestone := args.warmup_epochs }
  else
    none

/-- Learning-rate multiplier of `torch.optim.lr_scheduler.LinearLR` at a
given epoch, modelled from its documented closed form:
`start_factor + (1 - start_factor) * min(epoch, total_iters) / total_iters`. -/
def linearLR_factor (start_factor : ℚ) (total_iters : ℕ) (epoch : ℕ) : ℚ :=
  start_factor + (1 - start_factor) * ((min epoch total_iters : ℕ) : ℚ) / (total_iters : ℚ)

/-- Learning rate of `torch.optim.lr_scheduler.StepLR` at a given epoch,
modelled from its documented closed form: `base_lr * gamma ^ (epoch / step_size)`
with integer division. -/
def stepLR_lr (base_lr gamma : ℚ) (step_size : ℕ) (epoch : ℕ) : ℚ :=
  base_lr * gamma ^ (epoch / step_size)

/-- Learning rate at a given epoch of the `SequentialLR` that
`get_lr_scheduler` assembles for `sched_name="step"`: the `LinearLR`
warmup drives epochs before the milestone `warmup_epochs`, and from the
milestone on the `StepLR` phase runs on its own counter started at 0. -/
def sequentialStepLR_lr (base_lr start_factor : ℚ) (warmup_epochs : ℕ) (gamma : ℚ)
    (step_size : ℕ) (epoch : ℕ) : ℚ :=
  if epoch < warmup_epochs then
    base_lr * linearLR_factor start_factor warmup_epochs epoch
  else
    stepLR_lr base_lr gamma step_size (epoch - warmup_epochs)

/-- Python `dict.update` on ordered association lists: keys already
present keep their position and take the new value, keys only in
`new` are appended in their order. -/
def dict_update (d new : List (String × ℤ)) : List (String × ℤ) :=
  (d.map (fun kv => match new.lookup kv.1 with
    | some v => (kv.1, v)
    | none => kv))
  ++ new.filter (fun kv => (d.lookup kv.1).isNone)

/-- `append_dict_to_json_file` (utils.py lines 97-140), with the file
system abstracted to the JSON object currently stored at the path
(`none` = file absent).  The source loads the file, falls back to `{}`
on `FileNotFoundError`, runs `data.update(new_dict)` and rewrites the
whole file; the returned list is the rewritten file content. -/
def append_dict_to_json_file (new_dict : List (String × ℤ))
    (file : Option (List (String × ℤ))) : List (String × ℤ) :=
  dict_update (file.getD []) new_dict

/-- Observable effect of `set_seed_for_worker` (utils.py lines 193-212):
the value returned, and the seeds handed to NumPy and to the `random`
module. -/
structure WorkerSeedEffect where
  result : Option ℕ
  np_seed : ℕ
  random_seed : ℕ
  deriving DecidableEq

/-- `set_seed_for_worker` (utils.py lines 193-212): the branch condition
is `worker_id is not None`, so any provided id (0 included) seeds both
generators with the id and returns it; only a missing id falls back to
`torch.initial_seed() % 2**32` and returns `None`. -/
def set_seed_for_worker (worker_id : Option ℕ) (torch_initial_seed : ℕ) : WorkerSeedEffect :=
  match worker_id with
  | some w => { result := some w, np_seed := w, random_seed := w }
  | none => { result := none, np_seed := torch_initial_seed % 2 ^ 32,
              random_seed := torch_initial_seed % 2 ^ 32 }

/-- `np.bincount` on a list of class indices: occurrence counts for
`0 .. max`, and the empty array on empty input. -/
def bincount (targets : List ℕ) : List ℕ :=
  if targets = [] then []
  else (List.range (targets.foldr max 0 + 1)).map (fun c => targets.count c)

/-- `get_class_weights` (utils.py lines 525-548): per-class weight
`len(targets) / (num_classes * class_count)`, elementwise over the
bincount of the targets. -/
def get_class_weights (targets : List ℕ) (num_classes : ℕ) : List ℚ :=
  (bincount targets).map (fun (cnt : ℕ) => (targets.length : ℚ) / ((num_classes : ℚ) * (cnt : ℚ)))

/-- A torch tensor, modelled as a shape (list of dimension sizes) and a
total map from index lists to rational values; only indices of the
shape length matter for tensor equality. -/
structure Tensor where
  shape : List ℕ
  data : List ℕ → ℚ

/-- `tensor.dim()`: the number of dimensions. -/
def Tensor.dim (t : Tensor) : ℕ := t.shape.length

/-- `tensor.permute(p)`: output dimension `i` is input dimension `p i`,
so the output shape reads the input shape through `p` and the value at
an output index is read at the input index whose position `j` carries
the output coordinate at position `indexOf p j`. -/
def Tensor.permute (t : Tensor) (p : List ℕ) : Tensor :=
  { shape := p.map (fun i => t.shape.getD i 0),
    data := fun idx => t.data ((List.range t.shape.length).map (fun j => idx.getD (p.indexOf j) 0)) }

/-- Sameness of two tensors: equal shapes and equal values at every
index of the shape length. -/
def Tensor.SameAs (s t : Tensor) : Prop :=
  s.shape = t.shape ∧ ∀ idx : List ℕ, idx.length = t.shape.length → s.data idx = t.data idx

/-- `convert_to_channels_first` (utils.py lines 292-314): permute a 4-D
tensor with `(0, 3, 1, 2)` unless `shape[1] == 3`, a 3-D tensor with
`(2, 0, 1)` unless `shape[0] == 3`, and return anything else unchanged. -/
def convert_to_channels_first (image : Tensor) : Tensor :=
  if image.dim = 4 then
    (if image.shape.getD 1 0 = 3 then image else image.permute [0, 3, 1, 2])
  else if image.dim = 3 then
    (if image.shape.getD 0 0 = 3 then image else image.permute [2, 0, 1])
  else image

/-- `convert_to_channels_last` (utils.py lines 317-340): permute a 4-D
tensor with `(0, 2, 3, 1)` unless `shape[3] == 3`, a 3-D tensor with
`(1, 2, 0)` unless `shape[2] == 3`, and return anything else unchanged. -/
def convert_to_channels_last (image : Tensor) : Tensor :=
  if image.dim = 4 then
    (if image.shape.getD 3 0 = 3 then image else image.permute [0, 2, 3, 1])
  else if image.dim = 3 then
    (if image.shape.getD 2 0 = 3 then image else image.permute [1, 2, 0])
  else image

/-- `transforms.Normalize(mean, std)`: per-channel affine map
`(x - mean[c]) / std[c]`, with the channel read at index position 1 for
4-D input and position 0 otherwise (torchvision operates on `(N,C,H,W)`
or `(C,H,W)` tensors). -/
def Normalize (mean std : List ℚ) (t : Tensor) : Tensor :=
  if t.dim = 4 then
    { shape := t.shape,
      data := fun idx => (t.data idx - mean.getD (idx.getD 1 0) 0) / std.getD (idx.getD 1 0) 1 }
  else
    { shape := t.shape,
      data := fun idx => (t.data idx - mean.getD (idx.getD 0 0) 0) / std.getD (idx.getD 0 0) 1 }

/-- The `transforms.Lambda(lambda image: image * (1 / 255))` step of the
explain pipeline. -/
def scale255 (t : Tensor) : Tensor :=
  { shape := t.shape, data := fun idx => t.data idx * (1 / 255) }

/-- The forward explain transform of `get_explain_data_aug` (utils.py
lines 391-395): channels-first, scale by `1/255`, ImageNet
normalization, channels-last. -/
def explain_transform (t : Tensor) : Tensor :=
  convert_to_channels_last
    (Normalize IMAGENET_DEFAULT_MEAN IMAGENET_DEFAULT_STD
      (scale255 (convert_to_channels_first t)))

/-- The mean of the inverse normalization of `get_explain_data_aug`
(utils.py line 400): `-mean / std` elementwise. -/
def explain_inv_mean : List ℚ :=
  (IMAGENET_DEFAULT_MEAN.zip IMAGENET_DEFAULT_STD).map (fun ms => -1 * ms.1 / ms.2)

/-- The std of the inverse normalization of `get_explain_data_aug`
(utils.py line 401): `1 / std` elementwise. -/
def explain_inv_std : List ℚ :=
  IMAGENET_DEFAULT_STD.map (fun s => 1 / s)

/-- The inverse explain transform of `get_explain_data_aug` (utils.py
lines 397-404): channels-first, normalization with the negated-mean /
reciprocal-std parameters, channels-last.  Note it has no step undoing
the `1/255` scale of the forward transform. -/
def explain_inv_transform (t : Tensor) : Tensor :=
  convert_to_channels_last
    (Normalize explain_inv_mean explain_inv_std
      (convert_to_channels_first t))

/-- `get_explain_data_aug` (utils.py lines 379-406): the pair of the
forward and inverse explain transforms. -/
def get_explain_data_aug : (Tensor → Tensor) × (Tensor → Tensor) :=
  (explain_transform, explain_inv_transform)

/-- A torchvision transform as configured by `get_data_augmentation`
(utils.py lines 252-276): each constructor records the parameters the
source passes to the library constructor. -/
inductive Transform where
  | randomResizedCrop (size : ℕ) (interpolation : ℕ)
  | randomHorizontalFlip (p : Bool)
  | trivialAugmentWide (num_magnitude_bins : ℕ) (interpolation : ℕ)
  | augMix (interpolation : ℕ)
  | randAugment (num_magnitude_bins : ℕ) (interpolation : ℕ)
  | toTensor
  | normalize (mean std : List ℚ)
  | resize (size : ℕ) (interpolation : ℕ)
  | centerCrop (size : ℕ)
  deriving DecidableEq

/-- The `{"train": ..., "val": ...}` dictionary returned by
`get_data_augmentation`. -/
structure DataAug where
  train : List Transform
  val : List Transform
  deriving DecidableEq

/-- `get_data_augmentation` (utils.py lines 252-276): the train pipeline
starts with random-resized-crop and random-horizontal-flip, appends one
strategy-specific op for `aug_type` in `trivial` / `augmix` / `rand`
(any other value appends nothing and raises nothing), then tensor
conversion and ImageNet normalization; the val pipeline is resize,
center-crop, tensor conversion, normalization. -/
def get_data_augmentation (args : Args) : DataAug :=
  let train_aug : List Transform :=
    [.randomResizedCrop args.crop_size args.interpolation,
     .randomHorizontalFlip args.hflip]
  let train_aug :=
    if args.aug_type = "trivial" then
      train_aug ++ [.trivialAugmentWide args.mag_bins args.interpolation]
    else if args.aug_type = "augmix" then
      train_aug ++ [.augMix args.interpolation]
    else if args.aug_type = "rand" then
      train_aug ++ [.randAugment args.mag_bins args.interpolation]
    else train_aug
  let train_aug := train_aug ++ [.toTensor, .normalize IMAGENET_DEFAULT_MEAN IMAGENET_DEFAULT_STD]
  { train := train_aug,
    val := [.resize args.val_resize args.interpolation,
            .centerCrop args.crop_size,
            .toTensor,
            .normalize IMAGENET_DEFAULT_MEAN IMAGENET_DEFAULT_STD] }

/-- A concrete configuration used to instantiate the universally
quantified theorems below. -/
def exampleArgs : Args :=
  { crop_size := 224, interpolation := 2, hflip := true, aug_type := "augmix",
    mag_bins := 3, val_resize := 256, opt_name := "sgd", lr := 1/100, wd := 1/10000,
    sched_name := "step", warmup_decay := 1/100, warmup_epochs := 5, step_size := 3,
    gamma := 1/10, epochs := 20, eta_min := 0 }

/-- `exampleArgs` with an optimizer name outside the recognized set. -/
def argsFoo : Args := { exampleArgs with opt_name := "foo" }

/-- `exampleArgs` with a scheduler name outside the recognized set. -/
def argsPoly : Args := { exampleArgs with sched_name := "poly" }

/-- `exampleArgs` with an augmentation type outside the recognized set. -/
def argsNoAug : Args := { exampleArgs with aug_type := "none" }

/-- A 3-D tensor of shape `(3, 1, 1)`: already channels-first, so the
channel conversion round trip moves it to channels-last instead of
returning it unchanged. -/
def tCex : Tensor := { shape := [3, 1, 1], data := fun _ => 7 }

/-- A concrete 2-D tensor. -/
def t2d : Tensor := { shape := [2, 2], data := fun _ => 0 }

/-- A concrete channels-last 3-D tensor whose height and width differ
from 3. -/
def tWit : Tensor := { shape := [2, 4, 5], data := fun idx => (idx.getD 0 0 : ℚ) }

/-- A concrete `(1, 2, 3)` channels-last image whose pixels all hold the
integer value 255. -/
def x255 : Tensor := { shape := [1, 2, 3], data := fun _ => 255 }

/-- A concrete `(1, 2, 3)` channels-last image with pixel value 510. -/
def x510 : Tensor := { shape := [1, 2, 3], data := fun _ => 510 }

/-- C4: `get_optimizer` with `opt_name="sgd"` returns an SGD optimizer
with momentum `0.9` and the supplied learning rate and weight decay; for
every name other than `"sgd"` and `"adamw"` it returns the `None`
sentinel. -/
theorem get_optimizer_spec (args : Args) :
    (args.opt_name = "sgd" →
      get_optimizer args = some (.SGD args.lr args.wd (9/10)))
    ∧ (args.opt_name ≠ "sgd" → args.opt_name ≠ "adamw" →
      get_optimizer args = none) := by
  constructor
  · intro h
    simp [get_optimizer, h]
  · intro h1 h2
    simp [get_optimizer, h1, h2]

/-- Witness for C4 at the concrete configurations `exampleArgs`
(optimizer name `"sgd"`) and `argsFoo` (optimizer name `"foo"`). -/
theorem get_optimizer_spec_witness :
    get_optimizer exampleArgs = some (.SGD exampleArgs.lr exampleArgs.wd (9/10))
    ∧ get_optimizer argsFoo = none :=
  ⟨(get_optimizer_spec exampleArgs).1 rfl,
   (get_optimizer_spec argsFoo).2 (by decide) (by decide)⟩

/-- C7: for every scheduler name other than `"step"` and `"cosine"`,
`get_lr_scheduler` returns the `None` sentinel, so no scheduler (not
even the warmup phase alone) is returned. -/
theorem lr_scheduler_unknown_name_spec (args : Args)
    (h1 : args.sched_name ≠ "step") (h2 : args.sched_name ≠ "cosine") :
    get_lr_scheduler args = none := by
  simp [get_lr_scheduler, h1, h2]

/-- Witness for C7 at the concrete configuration `argsPoly`
(scheduler name `"poly"`). -/
theorem lr_scheduler_unknown_name_spec_witness :
    argsPoly.sched_name ≠ "step" ∧ argsPoly.sched_name ≠ "cosine"
    ∧ get_lr_scheduler argsPoly = none :=
  ⟨by decide, by decide,
   lr_scheduler_unknown_name_spec argsPoly (by decide) (by decide)⟩

/-- C5: appending `{"a": 1}` then `{"b": 2}` to a fresh file yields the
JSON object `{"a": 1, "b": 2}`, and subsequently appending `{"a": 3}`
yields `{"a": 3, "b": 2}`: a shallow key-merge where new keys overwrite
existing ones, the whole file being rewritten each time. -/
theorem append_dict_spec :
    append_dict_to_json_file [("a", 1)] none = [("a", 1)]
    ∧ append_dict_to_json_file [("b", 2)]
        (some (append_dict_to_json_file [("a", 1)] none)) = [("a", 1), ("b", 2)]
    ∧ append_dict_to_json_file [("a", 3)]
        (some (append_dict_to_json_file [("b", 2)]
          (some (append_dict_to_json_file [("a", 1)] none)))) = [("a", 3), ("b", 2)] := by
  decide

/-- C10: `set_seed_for_worker` called with worker id 0 takes the worker
branch (the source checks `worker_id is not None`, not truthiness): it
seeds NumPy and `random` with 0 and returns 0, never the
initial-seed-modulo-`2^32` fallback, whatever the initial seed is. -/
theorem set_seed_worker_zero_spec (torch_initial_seed : ℕ) :
    set_seed_for_worker (some 0) torch_initial_seed
      = { result := some 0, np_seed := 0, random_seed := 0 }
    ∧ (set_seed_for_worker (some 0) torch_initial_seed).result ≠ none := by
  exact ⟨rfl, by simp [set_seed_for_worker]⟩

/-- C9: both channel conversions return any tensor whose dimension is
neither 3 nor 4 unchanged (no permutation, no error). -/
theorem channels_convert_other_dims_spec (t : Tensor)
    (h3 : t.dim ≠ 3) (h4 : t.dim ≠ 4) :
    convert_to_channels_first t = t ∧ convert_to_channels_last t = t := by
  constructor <;> simp [convert_to_channels_first, convert_to_channels_last, h3, h4]

/-- Witness for C9 at the concrete 2-D tensor `t2d`. -/
theorem channels_convert_other_dims_spec_witness :
    t2d.dim ≠ 3 ∧ t2d.dim ≠ 4
    ∧ (convert_to_channels_first t2d = t2d ∧ convert_to_channels_last t2d = t2d) :=
  ⟨by decide, by decide, channels_convert_other_dims_spec t2d (by decide) (by decide)⟩

/-- C6: for every configuration whose `aug_type` is none of `"trivial"`,
`"augmix"`, `"rand"`, `get_data_augmentation` neither fails nor returns
a sentinel: it returns pipelines where the train pipeline is exactly
random-resized-crop, random-horizontal-flip, tensor conversion and
normalization, in that order (the strategy-specific op is silently
omitted). -/
theorem data_augmentation_unknown_aug_spec (args : Args)
    (h1 : args.aug_type ≠ "trivial") (h2 : args.aug_type ≠ "augmix")
    (h3 : args.aug_type ≠ "rand") :
    get_data_augmentation args =
      { train := [.randomResizedCrop args.crop_size args.interpolation,
                  .randomHorizontalFlip args.hflip,
                  .toTensor, .normalize IMAGENET_DEFAULT_MEAN IMAGENET_DEFAULT_STD],
        val := [.resize args.val_resize args.interpolation,
                .centerCrop args.crop_size,
                .toTensor, .normalize IMAGENET_DEFAULT_MEAN IMAGENET_DEFAULT_STD] } := by
  simp [get_data_augmentation, h1, h2, h3]

/-- Witness for C6 at the concrete configuration `argsNoAug`
(augmentation type `"none"`). -/
theorem data_augmentation_unknown_aug_spec_witness :
    argsNoAug.aug_type ≠ "trivial" ∧ argsNoAug.aug_type ≠ "augmix"
    ∧ argsNoAug.aug_type ≠ "rand"
    ∧ get_data_augmentation argsNoAug =
      { train := [.randomResizedCrop argsNoAug.crop_size argsNoAug.interpolation,
                  .randomHorizontalFlip argsNoAug.hflip,
                  .toTensor, .normalize IMAGENET_DEFAULT_MEAN IMAGENET_DEFAULT_STD],
        val := [.resize argsNoAug.val_resize argsNoAug.interpolation,
                .centerCrop argsNoAug.crop_size,
                .toTensor, .normalize IMAGENET_DEFAULT_MEAN IMAGENET_DEFAULT_STD] } :=
  ⟨by decide, by decide, by decide,
   data_augmentation_unknown_aug_spec argsNoAug (by decide) (by decide) (by decide)⟩

set_option maxRecDepth 4000 in
/-- C8: `get_class_weights` computes each class weight as
`total_samples / (num_classes * per_class_count)`, and on a two-class
dataset with per-class counts `[80, 20]` it returns `[0.625, 2.5]`. -/
theorem class_weights_spec :
    (∀ (targets : List ℕ) (n i : ℕ), i < (bincount targets).length →
      (get_class_weights targets n).getD i 0 =
        (targets.length : ℚ) / ((n : ℚ) * (((bincount targets).getD i 0 : ℕ) : ℚ)))
    ∧ get_class_weights (List.replicate 80 0 ++ List.replicate 20 1) 2 = [5/8, 5/2] := by
  constructor
  · intro targets n i hi
    unfold get_class_weights
    rw [List.getD_eq_getElem?_getD, List.getElem?_map, List.getElem?_eq_getElem hi,
        List.getD_eq_getElem?_getD, List.getElem?_eq_getElem hi]
    rfl
  · have hb : bincount (List.replicate 80 0 ++ List.replicate 20 1) = [80, 20] := by decide
    have hl : (List.replicate 80 0 ++ List.replicate 20 1).length = 100 := by simp
    unfold get_class_weights
    simp only [hb, hl]
    norm_num

/-- Witness for C8: the elementwise formula instantiated at the concrete
target list `[0, 0, 1]` with 2 classes and class index 0. -/
theorem class_weights_spec_witness :
    0 < (bincount [0, 0, 1]).length
    ∧ (get_class_weights [0, 0, 1] 2).getD 0 0 =
        (([0, 0, 1] : List ℕ).length : ℚ)
          / ((2 : ℚ) * (((bincount [0, 0, 1]).getD 0 0 : ℕ) : ℚ)) :=
  ⟨by decide, class_weights_spec.1 [0, 0, 1] 2 0 (by decide)⟩

/-- C3: `get_lr_scheduler` with `sched_name="step"`, `warmup_epochs=5`,
`epochs=20` returns the chained scheduler whose learning rate at epoch 0
is `warmup_decay * base_lr`, at epoch 5 is `base_lr`, follows the linear
warmup on every epoch before 5, and from epoch 5 on follows the step
decay on its own counter (multiplying by `gamma` every `step_size`
epochs and never re-entering the warmup phase). -/
theorem step_scheduler_spec (args : Args) (hs : args.sched_name = "step")
    (hw : args.warmup_epochs = 5) (_he : args.epochs = 20) (base_lr : ℚ) :
    get_lr_scheduler args =
      some { start_factor := args.warmup_decay, total_iters := 5,
             main := .StepLR args.step_size args.gamma, milestone := 5 }
    ∧ sequentialStepLR_lr base_lr args.warmup_decay 5 args.gamma args.step_size 0
        = args.warmup_decay * base_lr
    ∧ sequentialStepLR_lr base_lr args.warmup_decay 5 args.gamma args.step_size 5 = base_lr
    ∧ (∀ e, e < 5 →
        sequentialStepLR_lr base_lr args.warmup_decay 5 args.gamma args.step_size e
          = base_lr * linearLR_factor args.warmup_decay 5 e)
    ∧ (∀ e, 5 ≤ e →
        sequentialStepLR_lr base_lr args.warmup_decay 5 args.gamma args.step_size e
          = base_lr * args.gamma ^ ((e - 5) / args.step_size))
    ∧ (0 < args.step_size → ∀ j,
        sequentialStepLR_lr base_lr args.warmup_decay 5 args.gamma args.step_size
            (5 + (j + 1) * args.step_size)
          = args.gamma *
            sequentialStepLR_lr base_lr args.warmup_decay 5 args.gamma args.step_size
              (5 + j * args.step_size)) := by
  refine ⟨?_, ?_, ?_, ?_, ?_, ?_⟩
  · simp [get_lr_scheduler, hs, hw]
  · simp [sequentialStepLR_lr, linearLR_factor]
    ring
  · simp [sequentialStepLR_lr, stepLR_lr]
  · intro e he'
    simp [sequentialStepLR_lr, he']
  · intro e he'
    simp [sequentialStepLR_lr, stepLR_lr, Nat.not_lt.mpr he']
  · intro hss j
    have h1 : ¬ (5 + (j + 1) * args.step_size < 5) := by omega
    have h2 : ¬ (5 + j * args.step_size < 5) := by omega
    have e1 : (5 + (j + 1) * args.step_size - 5) / args.step_size = j + 1 := by
      rw [Nat.add_sub_cancel_left, Nat.mul_div_cancel _ hss]
    have e2 : (5 + j * args.step_size - 5) / args.step_size = j := by
      rw [Nat.add_sub_cancel_left, Nat.mul_div_cancel _ hss]
    simp only [sequentialStepLR_lr, stepLR_lr, if_neg h1, if_neg h2, e1, e2, pow_succ]
    ring

/-- Witness for C3 at the concrete configuration `exampleArgs` and base
learning rate 2. -/
theorem step_scheduler_spec_witness :
    (exampleArgs.sched_name = "step" ∧ exampleArgs.warmup_epochs = 5
      ∧ exampleArgs.epochs = 20)
    ∧ (get_lr_scheduler exampleArgs =
        some { start_factor := exampleArgs.warmup_decay, total_iters := 5,
               main := .StepLR exampleArgs.step_size exampleArgs.gamma, milestone := 5 }
      ∧ sequentialStepLR_lr 2 exampleArgs.warmup_decay 5 exampleArgs.gamma
          exampleArgs.step_size 0 = exampleArgs.warmup_decay * 2
      ∧ sequentialStepLR_lr 2 exampleArgs.warmup_decay 5 exampleArgs.gamma
          exampleArgs.step_size 5 = 2
      ∧ (∀ e, e < 5 →
          sequentialStepLR_lr 2 exampleArgs.warmup_decay 5 exampleArgs.gamma
            exampleArgs.step_size e = 2 * linearLR_factor exampleArgs.warmup_decay 5 e)
      ∧ (∀ e, 5 ≤ e →
          sequentialStepLR_lr 2 exampleArgs.warmup_decay 5 exampleArgs.gamma
            exampleArgs.step_size e
            = 2 * exampleArgs.gamma ^ ((e - 5) / exampleArgs.step_size))
      ∧ (0 < exampleArgs.step_size → ∀ j,
          sequentialStepLR_lr 2 exampleArgs.warmup_decay 5 exampleArgs.gamma
              exampleArgs.step_size (5 + (j + 1) * exampleArgs.step_size)
            = exampleArgs.gamma *
              sequentialStepLR_lr 2 exampleArgs.warmup_decay 5 exampleArgs.gamma
                exampleArgs.step_size (5 + j * exampleArgs.step_size))) :=
  ⟨⟨rfl, rfl, rfl⟩, step_scheduler_spec exampleArgs rfl rfl rfl 2⟩

/-- Undoing `transforms.Normalize(mean, std)` with
`Normalize(-mean/std, 1/std)` recovers the normalization input exactly
(the input here being the pixels already scaled by `1/255`). -/
theorem inv_normalize_cancel (v m s : ℚ) (hs : s ≠ 0) :
    ((v * (1 / 255) - m) / s - (-1 * m / s)) / (1 / s) = v * (1 / 255) := by
  field_simp
  ring

/-- C1 fails as stated: the tensor `tCex` of shape `(3, 1, 1)` is 3-D,
but the channel-conversion round trip returns a tensor of shape
`(1, 1, 3)`, not the original. -/
theorem channels_roundtrip_counterexample :
    ¬ (convert_to_channels_last (convert_to_channels_first tCex)).SameAs tCex := by
  intro hsame
  exact absurd hsame.1 (by decide)

/-- C1 amended: the channel-conversion round trip preserves shape and
values for a 3-D tensor `(a, b, c)` precisely under the conditions that
make the two permutations cancel or both conversions act as identity:
either `a = 3` and `c = 3`, or `a ≠ 3` and `b ≠ 3`; likewise for a 4-D
tensor `(n, a, b, c)` in its trailing three dimensions.  (As `tCex`
shows, it does not hold for every 3-D or 4-D tensor.) -/
theorem channels_roundtrip_amended (t : Tensor) :
    (∀ a b c : ℕ, t.shape = [a, b, c] → ((a = 3 ∧ c = 3) ∨ (a ≠ 3 ∧ b ≠ 3)) →
      (convert_to_channels_last (convert_to_channels_first t)).SameAs t)
    ∧ (∀ n a b c : ℕ, t.shape = [n, a, b, c] → ((a = 3 ∧ c = 3) ∨ (a ≠ 3 ∧ b ≠ 3)) →
      (convert_to_channels_last (convert_to_channels_first t)).SameAs t) := by
  obtain ⟨s, d⟩ := t
  constructor
  · rintro a b c rfl (⟨rfl, rfl⟩ | ⟨ha, hb⟩)
    · have h1 : convert_to_channels_first ⟨[3, b, 3], d⟩ = ⟨[3, b, 3], d⟩ := by
        simp [convert_to_channels_first, Tensor.dim]
      have h2 : convert_to_channels_last ⟨[3, b, 3], d⟩ = ⟨[3, b, 3], d⟩ := by
        simp [convert_to_channels_last, Tensor.dim]
      rw [h1, h2]
      exact ⟨rfl, fun _ _ => rfl⟩
    · have h1 : convert_to_channels_first ⟨[a, b, c], d⟩
          = Tensor.permute ⟨[a, b, c], d⟩ [2, 0, 1] := by
        simp [convert_to_channels_first, Tensor.dim, ha]
      have h2 : convert_to_channels_last (Tensor.permute ⟨[a, b, c], d⟩ [2, 0, 1])
          = Tensor.permute (Tensor.permute ⟨[a, b, c], d⟩ [2, 0, 1]) [1, 2, 0] := by
        simp [convert_to_channels_last, Tensor.dim, Tensor.permute, hb]
      rw [h1, h2]
      constructor
      · simp [Tensor.permute]
      · intro idx hlen
        rcases idx with _ | ⟨x, idx⟩
        · simp at hlen
        rcases idx with _ | ⟨y, idx⟩
        · simp at hlen
        rcases idx with _ | ⟨z, idx⟩
        · simp at hlen
        rcases idx with _ | ⟨w, idx⟩
        · rfl
        · simp at hlen
  · rintro n a b c rfl (⟨rfl, rfl⟩ | ⟨ha, hb⟩)
    · have h1 : convert_to_channels_first ⟨[n, 3, b, 3], d⟩ = ⟨[n, 3, b, 3], d⟩ := by
        simp [convert_to_channels_first, Tensor.dim]
      have h2 : convert_to_channels_last ⟨[n, 3, b, 3], d⟩ = ⟨[n, 3, b, 3], d⟩ := by
        simp [convert_to_channels_last, Tensor.dim]
      rw [h1, h2]
      exact ⟨rfl, fun _ _ => rfl⟩
    · have h1 : convert_to_channels_first ⟨[n, a, b, c], d⟩
          = Tensor.permute ⟨[n, a, b, c], d⟩ [0, 3, 1, 2] := by
        simp [convert_to_channels_first, Tensor.dim, ha]
      have h2 : convert_to_channels_last (Tensor.permute ⟨[n, a, b, c], d⟩ [0, 3, 1, 2])
          = Tensor.permute (Tensor.permute ⟨[n, a, b, c], d⟩ [0, 3, 1, 2]) [0, 2, 3, 1] := by
        simp [convert_to_channels_last, Tensor.dim, Tensor.permute, hb]
      rw [h1, h2]
      constructor
      · simp [Tensor.permute]
      · intro idx hlen
        rcases idx with _ | ⟨x, idx⟩
        · simp at hlen
        rcases idx with _ | ⟨y, idx⟩
        · simp at hlen
        rcases idx with _ | ⟨z, idx⟩
        · simp at hlen
        rcases idx with _ | ⟨u, idx⟩
        · simp at hlen
        rcases idx with _ | ⟨w, idx⟩
        · rfl
        · simp at hlen

/-- Witness for the amended C1 at the concrete channels-last tensor
`tWit` of shape `(2, 4, 5)`. -/
theorem channels_roundtrip_amended_witness :
    (tWit.shape = [2, 4, 5] ∧ ((2 = 3 ∧ 5 = 3) ∨ (2 ≠ 3 ∧ 4 ≠ 3)))
    ∧ (convert_to_channels_last (convert_to_channels_first tWit)).SameAs tWit :=
  ⟨⟨rfl, Or.inr ⟨by decide, by decide⟩⟩,
   (channels_roundtrip_amended tWit).1 2 4 5 rfl (Or.inr ⟨by decide, by decide⟩)⟩

/-- C2 fails as stated: on the `(1, 2, 3)` image `x255` whose pixels all
hold 255, the inverse explain transform applied to the forward explain
transform yields pixel value 1 = 255/255, not the original 255 — the
`1/255` rescale of the forward pipeline is not undone. -/
theorem explain_inverse_counterexample :
    (get_explain_data_aug.2 (get_explain_data_aug.1 x255)).data [0, 0, 0] = 1
    ∧ x255.data [0, 0, 0] = 255
    ∧ ¬ (get_explain_data_aug.2 (get_explain_data_aug.1 x255)).SameAs x255 := by
  have h1 : (get_explain_data_aug.2 (get_explain_data_aug.1 x255)).data [0, 0, 0] = 1 := by
    show ((((255 : ℚ) * (1 / 255) - 485/1000) / (229/1000) - (-1 * (485/1000) / (229/1000)))
        / (1 / (229/1000))) = 1
    norm_num
  refine ⟨h1, rfl, fun hsame => ?_⟩
  have h2 := hsame.2 [0, 0, 0] rfl
  rw [h1] at h2
  have h3 : x255.data [0, 0, 0] = 255 := rfl
  rw [h3] at h2
  norm_num at h2

/-- C2 amended: on every 3-D channels-last image `(h, w, 3)` with
`h ≠ 3` and `w ≠ 3`, the inverse explain transform composed with the
forward explain transform restores the shape and channel order and
exactly inverts the normalization step, returning every pixel value
divided by 255 (the `1/255` rescale of the forward pipeline is not
undone). -/
theorem explain_inverse_amended (t : Tensor) (h w : ℕ)
    (hs : t.shape = [h, w, 3]) (hh : h ≠ 3) (hw : w ≠ 3) :
    (get_explain_data_aug.2 (get_explain_data_aug.1 t)).shape = t.shape
    ∧ ∀ idx : List ℕ, idx.length = 3 →
        (get_explain_data_aug.2 (get_explain_data_aug.1 t)).data idx
          = t.data idx * (1 / 255) := by
  obtain ⟨s, d⟩ := t
  obtain rfl : s = [h, w, 3] := hs
  have hcf : convert_to_channels_first ⟨[h, w, 3], d⟩
      = Tensor.permute ⟨[h, w, 3], d⟩ [2, 0, 1] := by
    simp [convert_to_channels_first, Tensor.dim, hh]
  have hcl1 : convert_to_channels_last
        (Normalize IMAGENET_DEFAULT_MEAN IMAGENET_DEFAULT_STD
          (scale255 (Tensor.permute ⟨[h, w, 3], d⟩ [2, 0, 1])))
      = Tensor.permute
          (Normalize IMAGENET_DEFAULT_MEAN IMAGENET_DEFAULT_STD
            (scale255 (Tensor.permute ⟨[h, w, 3], d⟩ [2, 0, 1]))) [1, 2, 0] := by
    simp [convert_to_channels_last, Tensor.dim, Normalize, scale255, Tensor.permute, hw]
  have hcf2 : convert_to_channels_first
        (Tensor.permute
          (Normalize IMAGENET_DEFAULT_MEAN IMAGENET_DEFAULT_STD
            (scale255 (Tensor.permute ⟨[h, w, 3], d⟩ [2, 0, 1]))) [1, 2, 0])
      = Tensor.permute
          (Tensor.permute
            (Normalize IMAGENET_DEFAULT_MEAN IMAGENET_DEFAULT_STD
              (scale255 (Tensor.permute ⟨[h, w, 3], d⟩ [2, 0, 1]))) [1, 2, 0]) [2, 0, 1] := by
    simp [convert_to_channels_first, Tensor.dim, Normalize, scale255, Tensor.permute, hh]
  have hcl2 : convert_to_channels_last
        (Normalize explain_inv_mean explain_inv_std
          (Tensor.permute
            (Tensor.permute
              (Normalize IMAGENET_DEFAULT_MEAN IMAGENET_DEFAULT_STD
                (scale255 (Tensor.permute ⟨[h, w, 3], d⟩ [2, 0, 1]))) [1, 2, 0]) [2, 0, 1]))
      = Tensor.permute
          (Normalize explain_inv_mean explain_inv_std
            (Tensor.permute
              (Tensor.permute
                (Normalize IMAGENET_DEFAULT_MEAN IMAGENET_DEFAULT_STD
                  (scale255 (Tensor.permute ⟨[h, w, 3], d⟩ [2, 0, 1]))) [1, 2, 0]) [2, 0, 1]))
          [1, 2, 0] := by
    simp [convert_to_channels_last, Tensor.dim, Normalize, scale255, Tensor.permute,
          explain_inv_mean, explain_inv_std, hw]
  constructor
  · simp only [get_explain_data_aug, explain_transform, explain_inv_transform,
               hcf, hcl1, hcf2, hcl2]
    rfl
  · intro idx hlen
    simp only [get_explain_data_aug, explain_transform, explain_inv_transform,
               hcf, hcl1, hcf2, hcl2]
    rcases idx with _ | ⟨x, idx⟩
    · simp at hlen
    rcases idx with _ | ⟨y, idx⟩
    · simp at hlen
    rcases idx with _ | ⟨z, idx⟩
    · simp at hlen
    rcases idx with _ | ⟨u, idx⟩
    · rcases z with _ | _ | _ | k
      · show ((d [x, y, 0] * (1 / 255) - 485/1000) / (229/1000)
            - (-1 * (485/1000) / (229/1000))) / (1 / (229/1000)) = d [x, y, 0] * (1 / 255)
        exact inv_normalize_cancel _ _ _ (by norm_num)
      · show ((d [x, y, 1] * (1 / 255) - 456/1000) / (224/1000)
            - (-1 * (456/1000) / (224/1000))) / (1 / (224/1000)) = d [x, y, 1] * (1 / 255)
        exact inv_normalize_cancel _ _ _ (by norm_num)
      · show ((d [x, y, 2] * (1 / 255) - 406/1000) / (225/1000)
            - (-1 * (406/1000) / (225/1000))) / (1 / (225/1000)) = d [x, y, 2] * (1 / 255)
        exact inv_normalize_cancel _ _ _ (by norm_num)
      · show ((d [x, y, k + 3] * (1 / 255) - 0) / 1 - 0) / 1 = d [x, y, k + 3] * (1 / 255)
        ring
    · simp at hlen

/-- Witness for the amended C2 at the concrete `(1, 2, 3)` image `x510`
with pixel value 510 (so the round trip returns 2 everywhere). -/
theorem explain_inverse_amended_witness :
    (x510.shape = [1, 2, 3] ∧ (1 : ℕ) ≠ 3 ∧ (2 : ℕ) ≠ 3)
    ∧ ((get_explain_data_aug.2 (get_explain_data_aug.1 x510)).shape = x510.shape
      ∧ ∀ idx : List ℕ, idx.length = 3 →
          (get_explain_data_aug.2 (get_explain_data_aug.1 x510)).data idx
            = x510.data idx * (1 / 255)) :=
  ⟨⟨rfl, by decide, by decide⟩,
   explain_inverse_amended x510 1 2 rfl (by decide) (by decide)⟩
